import Mathlib

/-!
Shallow embedding of `src/ubx-parse.c` (osmocom-lcs): UBX message parsing
filling a GPS assist-data accumulator.

Modelling conventions:
* C `float`/`double` values are modelled as `ℚ`; the scaling helpers only
  multiply by 2 and 1/2, which is exact in binary floating point, and the
  decimal factors `1e-7`/`1e-3` are modelled by their exact rational values.
* The C cast `(int)f` truncates toward zero; this is `ratTrunc` below.
* `fprintf(stderr, ...)` diagnostic events are counted: every decoder
  returns the updated accumulator together with the number of diagnostics
  it emitted.  `printd` debug output (stdout) is not a diagnostic.
* `time(NULL)` is an explicit `now : Int` argument threaded to the two
  decoders that call it.
* The fixed C arrays `svs[MAX_SV]` are modelled as total functions
  `Nat → _`; an element write is `Function.update`.
-/

namespace UbxParse

/-- Truncation toward zero on `ℚ`, the semantics of the C cast `(int)f`. -/
def ratTrunc (q : ℚ) : ℤ :=
  if q < 0 then ⌈q⌉ else ⌊q⌋

/-- The `while (sf++ < 0) f *= 2.0;` loop body: multiply by 2, `n` times. -/
def mulTwo : ℚ → Nat → ℚ
  | f, 0 => f
  | f, n + 1 => mulTwo (f * 2) n

/-- The `while (sf-- > 0) f *= 0.5;` loop body: multiply by 1/2, `n` times. -/
def mulHalf : ℚ → Nat → ℚ
  | f, 0 => f
  | f, n + 1 => mulHalf (f * (1 / 2)) n

/-- `float_to_fixedpoint` from `src/ubx-parse.c`: repeatedly double when
`sf < 0`, repeatedly halve otherwise, then truncate toward zero. -/
def float_to_fixedpoint (f : ℚ) (sf : ℤ) : ℤ :=
  ratTrunc (if sf < 0 then mulTwo f (-sf).toNat else mulHalf f sf.toNat)

/-- `double_to_fixedpoint` from `src/ubx-parse.c`: same algorithm as
`float_to_fixedpoint`, on the 64-bit floating type. -/
def double_to_fixedpoint (d : ℚ) (sf : ℤ) : ℤ :=
  ratTrunc (if sf < 0 then mulTwo d (-sf).toNat else mulHalf d sf.toNat)

/-- Spec-side scaling definition (for the refinement claim about the
helpers): multiply the value by `2^|sf|` when `sf < 0`, by `(1/2)^sf`
otherwise, and truncate toward zero. -/
def fixedpoint_spec (v : ℚ) (sf : ℤ) : ℤ :=
  ratTrunc (if sf < 0 then v * 2 ^ (-sf).toNat else v * (1 / 2) ^ sf.toNat)

/-! ## The assist-data accumulator (`struct gps_assist_data`, from the
`gps.h` header that is not part of `src/`).

Modelled from the spec: capability-flag constants for the set
{REFPOS, REFTIME, UTC, IONOSPHERE, ALMANAC, EPHEMERIS}; the header's
numeric values are not given, so distinct single bits are used. -/

def GPS_FIELD_REFPOS : Nat := 1
def GPS_FIELD_REFTIME : Nat := 2
def GPS_FIELD_UTC : Nat := 4
def GPS_FIELD_IONOSPHERE : Nat := 8
def GPS_FIELD_ALMANAC : Nat := 16
def GPS_FIELD_EPHEMERIS : Nat := 32

/-- Modelled from the spec: the fixed capacity `MAX_SV` of the satellite
arrays, defined in the missing `gps.h` header.  The spec gives no numeric
value; any fixed capacity exhibits the same behaviour, 32 is used here. -/
def MAX_SV : Nat := 32

@[ext]
structure GpsRefPos where
  latitude : ℚ
  longitude : ℚ
  altitude : ℚ
  deriving DecidableEq

structure GpsRefTime where
  wn : ℤ
  tow : ℚ
  when : ℤ
  deriving DecidableEq

structure GpsUtcModel where
  a0 : ℤ
  a1 : ℤ
  delta_t_ls : ℤ
  t_ot : Nat
  wn_t : ℤ
  wn_lsf : ℤ
  dn : ℤ
  delta_t_lsf : ℤ
  deriving DecidableEq

structure GpsIonosphereModel where
  alpha_0 : ℤ
  alpha_1 : ℤ
  alpha_2 : ℤ
  alpha_3 : ℤ
  beta_0 : ℤ
  beta_1 : ℤ
  beta_2 : ℤ
  beta_3 : ℤ
  deriving DecidableEq

/-- One per-satellite almanac record.  The payload of the record beyond
the satellite ID is produced by the external unpack collaborator and is
modelled opaquely as the packed subframe words. -/
structure GpsAlmanacSv where
  sv_id : Nat
  words : List Nat
  deriving DecidableEq

structure GpsEphemerisSv where
  sv_id : Nat
  words : List Nat
  deriving DecidableEq

structure GpsAlmanac where
  wna : Nat
  n_sv : Nat
  svs : Nat → GpsAlmanacSv

structure GpsEphemeris where
  n_sv : Nat
  svs : Nat → GpsEphemerisSv

structure GpsAssistData where
  fields : Nat
  ref_pos : GpsRefPos
  ref_time : GpsRefTime
  utc : GpsUtcModel
  ionosphere : GpsIonosphereModel
  almanac : GpsAlmanac
  ephemeris : GpsEphemeris

/-- Modelled from the spec: `gps_unpack_sf45_almanac` (external collaborator
in the missing `gps.c`), a fixed black-box function filling an almanac
record from the packed subframe words; the satellite-ID it writes is
documented as unreliable (modelled as 0) and is overwritten by the caller. -/
def gps_unpack_sf45_almanac (words : List Nat) : GpsAlmanacSv :=
  { sv_id := 0, words := words }

/-- Modelled from the spec: `gps_unpack_sf123` (external collaborator in the
missing `gps.c`), a fixed black-box function filling the non-ID fields of an
ephemeris record from the packed subframe words; the satellite-ID set by the
caller beforehand is left untouched. -/
def gps_unpack_sf123 (words : List Nat) (sv : GpsEphemerisSv) : GpsEphemerisSv :=
  { sv with words := words }

/-! ## UBX payload structures (from the missing `ubx.h` header); only the
fields the decoders in `src/ubx-parse.c` read are modelled. -/

structure ubx_nav_posllh where
  itow : Nat
  lat : ℤ
  lon : ℤ
  height : ℤ

structure ubx_aid_ini where
  wn : ℤ
  tow : ℤ
  flags : Nat

structure ubx_aid_hui where
  flags : Nat
  utc_a0 : ℚ
  utc_a1 : ℚ
  utc_ls : ℤ
  utc_tot : Nat
  utc_wnt : ℤ
  utc_wnf : ℤ
  utc_dn : ℤ
  utc_lsf : ℤ
  klob_a0 : ℚ
  klob_a1 : ℚ
  klob_a2 : ℚ
  klob_a3 : ℚ
  klob_b0 : ℚ
  klob_b1 : ℚ
  klob_b2 : ℚ
  klob_b3 : ℚ

structure ubx_aid_alm where
  sv_id : Nat
  gps_week : Nat
  alm_words : List Nat

structure ubx_aid_eph where
  sv_id : Nat
  present : Nat
  eph_words : List Nat

structure ubx_nav_timegps where
  itow : Nat
  week : ℤ

/-- Modelled from the spec: `sizeof(struct ubx_aid_alm)` — the canonical
exact byte size of the fixed-layout AID-ALM message structure (the numeric
value is immaterial to the claims; only that it differs from the 8-byte
sentinel matters; 4+4+8·4 = 40 per the message catalog). -/
def sizeof_ubx_aid_alm : ℤ := 40

/-- Modelled from the spec: `sizeof(struct ubx_aid_eph)` — the canonical
exact byte size of the fixed-layout AID-EPH message structure
(4+4+3·8·4 = 104 per the message catalog). -/
def sizeof_ubx_aid_eph : ℤ := 104

/-! ## The six decoders (`_ubx_msg_parse_*` in `src/ubx-parse.c`).
Each returns the updated accumulator and the number of `stderr`
diagnostics emitted. -/

/-- `_ubx_msg_parse_nav_posllh`: unconditionally commit the reference
position, scaled by 1e-7 (degrees) and 1e-3 (meters). -/
def _ubx_msg_parse_nav_posllh (pl : ubx_nav_posllh) (pl_len : ℤ)
    (gps : GpsAssistData) : GpsAssistData × Nat :=
  ({ gps with
      fields := gps.fields ||| GPS_FIELD_REFPOS,
      ref_pos :=
        { latitude := (pl.lat : ℚ) * (1 / 10000000),
          longitude := (pl.lon : ℚ) * (1 / 10000000),
          altitude := (pl.height : ℚ) * (1 / 1000) } }, 0)

/-- `_ubx_msg_parse_aid_ini`: unconditionally commit the reference time
(week number raw, time-of-week ms → s, capture timestamp `now`); warn on
`(flags & 0x03) != 0x03` but commit anyway (fail-open). -/
def _ubx_msg_parse_aid_ini (pl : ubx_aid_ini) (pl_len : ℤ) (now : ℤ)
    (gps : GpsAssistData) : GpsAssistData × Nat :=
  let gps1 :=
    { gps with
        fields := gps.fields ||| GPS_FIELD_REFTIME,
        ref_time := { wn := pl.wn, tow := (pl.tow : ℚ) * (1 / 1000), when := now } }
  if pl.flags &&& 0x03 ≠ 0x03 then (gps1, 1) else (gps1, 0)

/-- `_ubx_msg_parse_aid_hui`: two independently gated sub-blocks — UTC
parameters when `flags & 0x2`, Klobuchar ionosphere parameters when
`flags & 0x04`. -/
def _ubx_msg_parse_aid_hui (pl : ubx_aid_hui) (pl_len : ℤ)
    (gps : GpsAssistData) : GpsAssistData × Nat :=
  let gps1 :=
    if pl.flags &&& 0x2 ≠ 0 then
      { gps with
          fields := gps.fields ||| GPS_FIELD_UTC,
          utc :=
            { a0 := double_to_fixedpoint pl.utc_a0 (-30),
              a1 := double_to_fixedpoint pl.utc_a1 (-50),
              delta_t_ls := pl.utc_ls,
              t_ot := pl.utc_tot >>> 12,
              wn_t := pl.utc_wnt,
              wn_lsf := pl.utc_wnf,
              dn := pl.utc_dn,
              delta_t_lsf := pl.utc_lsf } }
    else gps
  let gps2 :=
    if pl.flags &&& 0x04 ≠ 0 then
      { gps1 with
          fields := gps1.fields ||| GPS_FIELD_IONOSPHERE,
          ionosphere :=
            { alpha_0 := float_to_fixedpoint pl.klob_a0 (-30),
              alpha_1 := float_to_fixedpoint pl.klob_a1 (-27),
              alpha_2 := float_to_fixedpoint pl.klob_a2 (-24),
              alpha_3 := float_to_fixedpoint pl.klob_a3 (-24),
              beta_0 := float_to_fixedpoint pl.klob_b0 11,
              beta_1 := float_to_fixedpoint pl.klob_b1 14,
              beta_2 := float_to_fixedpoint pl.klob_b2 16,
              beta_3 := float_to_fixedpoint pl.klob_b3 16 } }
    else gps1
  (gps2, 0)

/-- `_ubx_msg_parse_aid_alm`: 8-byte sentinel → silent skip; wrong length →
one diagnostic, skip; `gps_week == 0` → no commit; otherwise append one
almanac record at index `n_sv` (unchecked against `MAX_SV`), overwriting
the unpacked satellite-ID with the message's. -/
def _ubx_msg_parse_aid_alm (pl : ubx_aid_alm) (pl_len : ℤ)
    (gps : GpsAssistData) : GpsAssistData × Nat :=
  if pl_len = 8 then (gps, 0)
  else if pl_len ≠ sizeof_ubx_aid_alm then (gps, 1)
  else if pl.gps_week ≠ 0 then
    let i := gps.almanac.n_sv
    let sv := { gps_unpack_sf45_almanac pl.alm_words with sv_id := pl.sv_id }
    ({ gps with
        fields := gps.fields ||| GPS_FIELD_ALMANAC,
        almanac :=
          { wna := pl.gps_week &&& 0xff,
            n_sv := i + 1,
            svs := Function.update gps.almanac.svs i sv } }, 0)
  else (gps, 0)

/-- `_ubx_msg_parse_aid_eph`: same length gating as AID-ALM; commit gated
on `present`; satellite-ID is written before the unpack call (which leaves
it untouched), then the record is appended at index `n_sv` (unchecked). -/
def _ubx_msg_parse_aid_eph (pl : ubx_aid_eph) (pl_len : ℤ)
    (gps : GpsAssistData) : GpsAssistData × Nat :=
  if pl_len = 8 then (gps, 0)
  else if pl_len ≠ sizeof_ubx_aid_eph then (gps, 1)
  else if pl.present ≠ 0 then
    let i := gps.ephemeris.n_sv
    let sv0 := { gps.ephemeris.svs i with sv_id := pl.sv_id }
    let sv := gps_unpack_sf123 pl.eph_words sv0
    ({ gps with
        fields := gps.fields ||| GPS_FIELD_EPHEMERIS,
        ephemeris :=
          { n_sv := i + 1,
            svs := Function.update gps.ephemeris.svs i sv } }, 0)
  else (gps, 0)

/-- `_ubx_msg_parse_nav_timegps`: unconditionally commit the reference
time (alternate source, same fields as AID-INI, no validity check). -/
def _ubx_msg_parse_nav_timegps (pl : ubx_nav_timegps) (pl_len : ℤ) (now : ℤ)
    (gps : GpsAssistData) : GpsAssistData × Nat :=
  ({ gps with
      fields := gps.fields ||| GPS_FIELD_REFTIME,
      ref_time := { wn := pl.week, tow := (pl.itow : ℚ) * (1 / 1000), when := now } }, 0)

/-- A dispatched message: one constructor per entry of the dispatch table
`ubx_parse_dt`, carrying the payload structure and the payload length the
frame layer passes along. -/
inductive UbxMsg where
  | nav_posllh (pl : ubx_nav_posllh) (pl_len : ℤ)
  | aid_ini (pl : ubx_aid_ini) (pl_len : ℤ)
  | aid_hui (pl : ubx_aid_hui) (pl_len : ℤ)
  | aid_alm (pl : ubx_aid_alm) (pl_len : ℤ)
  | aid_eph (pl : ubx_aid_eph) (pl_len : ℤ)
  | nav_timegps (pl : ubx_nav_timegps) (pl_len : ℤ)

/-- The dispatch table `ubx_parse_dt` as a function: route each message to
its decoder.  `now` is the wall clock observed during the call. -/
def ubx_parse (msg : UbxMsg) (now : ℤ) (gps : GpsAssistData) : GpsAssistData × Nat :=
  match msg with
  | .nav_posllh pl l => _ubx_msg_parse_nav_posllh pl l gps
  | .aid_ini pl l => _ubx_msg_parse_aid_ini pl l now gps
  | .aid_hui pl l => _ubx_msg_parse_aid_hui pl l gps
  | .aid_alm pl l => _ubx_msg_parse_aid_alm pl l gps
  | .aid_eph pl l => _ubx_msg_parse_aid_eph pl l gps
  | .nav_timegps pl l => _ubx_msg_parse_nav_timegps pl l now gps

/-- Whether a message's decoder calls `time(NULL)`. -/
def reads_wall_clock : UbxMsg → Bool
  | .aid_ini _ _ => true
  | .nav_timegps _ _ => true
  | _ => false

/-- A zero-initialised accumulator, as the session owner would create it. -/
def gps_assist_data_init : GpsAssistData :=
  { fields := 0
    ref_pos := { latitude := 0, longitude := 0, altitude := 0 }
    ref_time := { wn := 0, tow := 0, when := 0 }
    utc := { a0 := 0, a1 := 0, delta_t_ls := 0, t_ot := 0, wn_t := 0,
             wn_lsf := 0, dn := 0, delta_t_lsf := 0 }
    ionosphere := { alpha_0 := 0, alpha_1 := 0, alpha_2 := 0, alpha_3 := 0,
                    beta_0 := 0, beta_1 := 0, beta_2 := 0, beta_3 := 0 }
    almanac := { wna := 0, n_sv := 0, svs := fun _ => { sv_id := 0, words := [] } }
    ephemeris := { n_sv := 0, svs := fun _ => { sv_id := 0, words := [] } } }

/-! ## Helper lemmas about the scaling loops and truncation -/

lemma mulTwo_eq (f : ℚ) (n : ℕ) : mulTwo f n = f * 2 ^ n := by
  induction n generalizing f with
  | zero => simp [mulTwo]
  | succ n ih => rw [mulTwo, ih]; ring

lemma mulHalf_eq (f : ℚ) (n : ℕ) : mulHalf f n = f * (1 / 2) ^ n := by
  induction n generalizing f with
  | zero => simp [mulHalf]
  | succ n ih => rw [mulHalf, ih]; ring

lemma ratTrunc_of_nonneg {q : ℚ} (h : 0 ≤ q) : ratTrunc q = ⌊q⌋ := by
  unfold ratTrunc
  rw [if_neg (not_lt.mpr h)]

lemma ratTrunc_of_nonpos {q : ℚ} (h : q ≤ 0) : ratTrunc q = ⌈q⌉ := by
  unfold ratTrunc
  rcases lt_or_eq_of_le h with h' | h'
  · rw [if_pos h']
  · rw [h']
    simp

lemma ratTrunc_intCast (n : ℤ) : ratTrunc (n : ℚ) = n := by
  unfold ratTrunc
  split <;> simp

lemma abs_ratTrunc_sub_lt (q : ℚ) : |(ratTrunc q : ℚ) - q| < 1 := by
  unfold ratTrunc
  split
  · rw [abs_sub_lt_iff]
    constructor
    · linarith [Int.ceil_lt_add_one q]
    · linarith [Int.le_ceil q]
  · rw [abs_sub_lt_iff]
    constructor
    · linarith [Int.floor_le q]
    · linarith [Int.sub_one_lt_floor q]

/-! ## Sample concrete inputs used by witness theorems -/

def sample_alm : ubx_aid_alm :=
  { sv_id := 1, gps_week := 500, alm_words := [1, 2] }

def sample_eph : ubx_aid_eph :=
  { sv_id := 3, present := 1, eph_words := [4] }

def sample_hui : ubx_aid_hui :=
  { flags := 6, utc_a0 := 1, utc_a1 := 1, utc_ls := 18, utc_tot := 61440,
    utc_wnt := 100, utc_wnf := 137, utc_dn := 7, utc_lsf := 18,
    klob_a0 := 1, klob_a1 := 1, klob_a2 := 1, klob_a3 := 1,
    klob_b0 := 1, klob_b1 := 1, klob_b2 := 1, klob_b3 := 1 }

/-- C2: both fixed-point scaling helpers multiply the value by 2.0 exactly
`|sf|` times when `sf < 0` and by 0.5 exactly `sf` times otherwise, then
truncate toward zero; in particular `scale(1.0, -1) = 2`,
`scale(1.0, 1) = 0` and `scale(4.0, 2) = 1`. -/
theorem C2_fixedpoint_scaling (v : ℚ) (sf : ℤ) :
    float_to_fixedpoint v sf = fixedpoint_spec v sf
    ∧ double_to_fixedpoint v sf = fixedpoint_spec v sf
    ∧ float_to_fixedpoint 1 (-1) = 2 ∧ float_to_fixedpoint 1 1 = 0
    ∧ float_to_fixedpoint 4 2 = 1
    ∧ double_to_fixedpoint 1 (-1) = 2 ∧ double_to_fixedpoint 1 1 = 0
    ∧ double_to_fixedpoint 4 2 = 1 := by
  have hgen : ∀ w : ℚ, ∀ t : ℤ,
      ratTrunc (if t < 0 then mulTwo w (-t).toNat else mulHalf w t.toNat)
        = fixedpoint_spec w t := by
    intro w t
    unfold fixedpoint_spec
    rcases lt_or_ge t 0 with h | h
    · rw [if_pos h, if_pos h, mulTwo_eq]
    · rw [if_neg (not_lt.mpr h), if_neg (not_lt.mpr h), mulHalf_eq]
  refine ⟨hgen v sf, hgen v sf, ?_, ?_, ?_, ?_, ?_, ?_⟩ <;>
    norm_num [float_to_fixedpoint, double_to_fixedpoint, mulTwo_eq, mulHalf_eq,
      ratTrunc_of_nonneg, show ((2 : ℤ).toNat = 2) from rfl]

/-- C3: for AID-ALM and AID-EPH, an 8-byte payload leaves the accumulator
unchanged with no diagnostic; a length that is neither 8 nor the exact
structure size leaves it unchanged with exactly one diagnostic. -/
theorem C3_length_gating (alm : ubx_aid_alm) (eph : ubx_aid_eph) (len : ℤ)
    (gps : GpsAssistData) :
    _ubx_msg_parse_aid_alm alm 8 gps = (gps, 0)
    ∧ _ubx_msg_parse_aid_eph eph 8 gps = (gps, 0)
    ∧ (len ≠ 8 → len ≠ sizeof_ubx_aid_alm →
        _ubx_msg_parse_aid_alm alm len gps = (gps, 1))
    ∧ (len ≠ 8 → len ≠ sizeof_ubx_aid_eph →
        _ubx_msg_parse_aid_eph eph len gps = (gps, 1)) := by
  refine ⟨rfl, rfl, ?_, ?_⟩
  · intro h1 h2
    unfold _ubx_msg_parse_aid_alm
    rw [if_neg h1, if_pos h2]
  · intro h1 h2
    unfold _ubx_msg_parse_aid_eph
    rw [if_neg h1, if_pos h2]

/-- Witness for C3: a 9-byte payload (neither 8 nor the exact size) is
dropped with exactly one diagnostic, for both decoders. -/
theorem C3_length_gating_witness :
    _ubx_msg_parse_aid_alm sample_alm 9 gps_assist_data_init = (gps_assist_data_init, 1)
    ∧ _ubx_msg_parse_aid_eph sample_eph 9 gps_assist_data_init = (gps_assist_data_init, 1) :=
  ⟨(C3_length_gating sample_alm sample_eph 9 gps_assist_data_init).2.2.1
      (by decide) (by decide),
   (C3_length_gating sample_alm sample_eph 9 gps_assist_data_init).2.2.2
      (by decide) (by decide)⟩

/-- C4: AID-HUI commits the UTC sub-block iff `flags & 0x2` (64-bit scaling
path, factors -30 and -50, `t_ot = utc_tot >> 12`, remaining fields raw) and the
ionosphere sub-block iff `flags & 0x04` (32-bit path, factors
-30,-27,-24,-24,11,14,16,16); no other part of the accumulator changes, no
diagnostic is emitted, and with both bits clear the call is a no-op. -/
theorem C4_aid_hui_gating (pl : ubx_aid_hui) (pl_len : ℤ) (gps : GpsAssistData) :
    (_ubx_msg_parse_aid_hui pl pl_len gps).2 = 0
    ∧ (_ubx_msg_parse_aid_hui pl pl_len gps).1.utc =
        (if pl.flags &&& 0x2 ≠ 0 then
          { a0 := double_to_fixedpoint pl.utc_a0 (-30),
            a1 := double_to_fixedpoint pl.utc_a1 (-50),
            delta_t_ls := pl.utc_ls,
            t_ot := pl.utc_tot >>> 12,
            wn_t := pl.utc_wnt,
            wn_lsf := pl.utc_wnf,
            dn := pl.utc_dn,
            delta_t_lsf := pl.utc_lsf }
        else gps.utc)
    ∧ (_ubx_msg_parse_aid_hui pl pl_len gps).1.ionosphere =
        (if pl.flags &&& 0x04 ≠ 0 then
          { alpha_0 := float_to_fixedpoint pl.klob_a0 (-30),
            alpha_1 := float_to_fixedpoint pl.klob_a1 (-27),
            alpha_2 := float_to_fixedpoint pl.klob_a2 (-24),
            alpha_3 := float_to_fixedpoint pl.klob_a3 (-24),
            beta_0 := float_to_fixedpoint pl.klob_b0 11,
            beta_1 := float_to_fixedpoint pl.klob_b1 14,
            beta_2 := float_to_fixedpoint pl.klob_b2 16,
            beta_3 := float_to_fixedpoint pl.klob_b3 16 }
        else gps.ionosphere)
    ∧ (_ubx_msg_parse_aid_hui pl pl_len gps).1.fields =
        ((gps.fields ||| (if pl.flags &&& 0x2 ≠ 0 then GPS_FIELD_UTC else 0))
          ||| (if pl.flags &&& 0x04 ≠ 0 then GPS_FIELD_IONOSPHERE else 0))
    ∧ (_ubx_msg_parse_aid_hui pl pl_len gps).1.ref_pos = gps.ref_pos
    ∧ (_ubx_msg_parse_aid_hui pl pl_len gps).1.ref_time = gps.ref_time
    ∧ (_ubx_msg_parse_aid_hui pl pl_len gps).1.almanac = gps.almanac
    ∧ (_ubx_msg_parse_aid_hui pl pl_len gps).1.ephemeris = gps.ephemeris
    ∧ (pl.flags &&& 0x2 = 0 → pl.flags &&& 0x04 = 0 →
        _ubx_msg_parse_aid_hui pl pl_len gps = (gps, 0)) := by
  simp only [_ubx_msg_parse_aid_hui]
  split_ifs <;> simp_all

/-- Witness for C4: with both validity bits set (`flags = 6`), the UTC and
ionosphere records are committed as scaled, and with both bits cleared the
call is a no-op. -/
theorem C4_aid_hui_gating_witness :
    (_ubx_msg_parse_aid_hui sample_hui 72 gps_assist_data_init).1.utc =
      { a0 := double_to_fixedpoint 1 (-30),
        a1 := double_to_fixedpoint 1 (-50),
        delta_t_ls := 18, t_ot := 15, wn_t := 100, wn_lsf := 137,
        dn := 7, delta_t_lsf := 18 }
    ∧ (_ubx_msg_parse_aid_hui sample_hui 72 gps_assist_data_init).1.ionosphere =
      { alpha_0 := float_to_fixedpoint 1 (-30),
        alpha_1 := float_to_fixedpoint 1 (-27),
        alpha_2 := float_to_fixedpoint 1 (-24),
        alpha_3 := float_to_fixedpoint 1 (-24),
        beta_0 := float_to_fixedpoint 1 11,
        beta_1 := float_to_fixedpoint 1 14,
        beta_2 := float_to_fixedpoint 1 16,
        beta_3 := float_to_fixedpoint 1 16 }
    ∧ _ubx_msg_parse_aid_hui { sample_hui with flags := 0 } 72 gps_assist_data_init =
        (gps_assist_data_init, 0) :=
  ⟨((C4_aid_hui_gating sample_hui 72 gps_assist_data_init).2.1).trans
      (if_pos (by decide)),
   ((C4_aid_hui_gating sample_hui 72 gps_assist_data_init).2.2.1).trans
      (if_pos (by decide)),
   (C4_aid_hui_gating { sample_hui with flags := 0 } 72
      gps_assist_data_init).2.2.2.2.2.2.2.2 (by decide) (by decide)⟩

/-- C5: AID-INI always commits the reference time (fail-open): REFTIME is
OR'd in, `wn` copied raw, `tow` converted ms → s, `when` set to the wall
clock; exactly one warning diagnostic is emitted iff the two validity bits
`flags & 0x03` are not both set, and nothing else changes. -/
theorem C5_aid_ini_fail_open (pl : ubx_aid_ini) (pl_len now : ℤ) (gps : GpsAssistData) :
    (_ubx_msg_parse_aid_ini pl pl_len now gps).1 =
      { gps with
          fields := gps.fields ||| GPS_FIELD_REFTIME,
          ref_time := { wn := pl.wn, tow := (pl.tow : ℚ) * (1 / 1000), when := now } }
    ∧ (_ubx_msg_parse_aid_ini pl pl_len now gps).2 =
        (if pl.flags &&& 0x03 ≠ 0x03 then 1 else 0) := by
  unfold _ubx_msg_parse_aid_ini
  constructor <;> split <;> rfl

/-- C6: an AID-ALM payload that passes the length checks but has
`gps_week = 0` is a complete no-op: no count increment, no capability
flag, no committed record, no diagnostic. -/
theorem C6_aid_alm_week_zero (pl : ubx_aid_alm) (pl_len : ℤ) (gps : GpsAssistData)
    (hw : pl.gps_week = 0) (hlen : pl_len = sizeof_ubx_aid_alm) :
    _ubx_msg_parse_aid_alm pl pl_len gps = (gps, 0) := by
  subst hlen
  unfold _ubx_msg_parse_aid_alm
  rw [if_neg (by norm_num [sizeof_ubx_aid_alm]), if_neg (by simp),
    if_neg (by simp [hw])]

/-- Witness for C6: a full-size AID-ALM message with week 0 leaves the
fresh accumulator untouched. -/
theorem C6_aid_alm_week_zero_witness :
    _ubx_msg_parse_aid_alm { sv_id := 7, gps_week := 0, alm_words := [1, 2, 3] }
      40 gps_assist_data_init = (gps_assist_data_init, 0) :=
  C6_aid_alm_week_zero _ 40 gps_assist_data_init rfl rfl

/-- C7: NAV-POSLLH sets REFPOS and commits latitude/longitude scaled by
1e-7 and altitude scaled by 1e-3; the spec's concrete scenario evaluates
to lat 37.338227, lon -122.004145, alt 30. -/
theorem C7_nav_posllh (pl : ubx_nav_posllh) (pl_len : ℤ) (gps : GpsAssistData) :
    _ubx_msg_parse_nav_posllh pl pl_len gps =
      ({ gps with
          fields := gps.fields ||| GPS_FIELD_REFPOS,
          ref_pos :=
            { latitude := (pl.lat : ℚ) * (1 / 10000000),
              longitude := (pl.lon : ℚ) * (1 / 10000000),
              altitude := (pl.height : ℚ) * (1 / 1000) } }, 0)
    ∧ (_ubx_msg_parse_nav_posllh
        { itow := 0, lat := 373382270, lon := -1220041450, height := 30000 }
        pl_len gps_assist_data_init).1.ref_pos =
      { latitude := 37338227 / 1000000,
        longitude := -(122004145 / 1000000),
        altitude := 30 }
    ∧ (_ubx_msg_parse_nav_posllh
        { itow := 0, lat := 373382270, lon := -1220041450, height := 30000 }
        pl_len gps_assist_data_init).1.fields = GPS_FIELD_REFPOS := by
  refine ⟨rfl, ?_, rfl⟩
  simp only [_ubx_msg_parse_nav_posllh]
  refine GpsRefPos.ext ?_ ?_ ?_ <;> norm_num [gps_assist_data_init]

/-- C8: no decoder ever clears a capability flag: every bit set in
`fields` before any dispatched call is still set afterwards. -/
theorem C8_fields_monotone (msg : UbxMsg) (now : ℤ) (gps : GpsAssistData) (i : ℕ)
    (h : gps.fields.testBit i = true) :
    ((ubx_parse msg now gps).1.fields).testBit i = true := by
  cases msg <;>
    simp only [ubx_parse, _ubx_msg_parse_nav_posllh, _ubx_msg_parse_aid_ini,
      _ubx_msg_parse_aid_hui, _ubx_msg_parse_aid_alm, _ubx_msg_parse_aid_eph,
      _ubx_msg_parse_nav_timegps] <;>
    (try split_ifs) <;> simp [Nat.testBit_or, h]

/-- Witness for C8: a REFPOS bit already present survives an AID-HUI call
that commits both of its sub-blocks. -/
theorem C8_fields_monotone_witness :
    ((ubx_parse (.aid_hui sample_hui 72) 5
        { gps_assist_data_init with fields := GPS_FIELD_REFPOS }).1.fields).testBit 0
      = true :=
  C8_fields_monotone (.aid_hui sample_hui 72) 5
    { gps_assist_data_init with fields := GPS_FIELD_REFPOS } 0 (by decide)

/-- Overwrite only the capture timestamp of an accumulator. -/
def when_set (g : GpsAssistData) (w : ℤ) : GpsAssistData :=
  { g with ref_time := { g.ref_time with when := w } }

/-- C10: decoding is deterministic up to the wall clock: two calls on the
same message and state differ at most in `ref_time.when`, and the four
decoders that never call `time(NULL)` are fully deterministic. -/
theorem C10_determinism (msg : UbxMsg) (gps : GpsAssistData) (t1 t2 : ℤ) :
    (ubx_parse msg t1 gps).2 = (ubx_parse msg t2 gps).2
    ∧ (ubx_parse msg t1 gps).1 =
        when_set (ubx_parse msg t2 gps).1 ((ubx_parse msg t1 gps).1.ref_time.when)
    ∧ (reads_wall_clock msg = false → ubx_parse msg t1 gps = ubx_parse msg t2 gps) := by
  cases msg <;>
    simp only [ubx_parse, reads_wall_clock, when_set, _ubx_msg_parse_nav_posllh,
      _ubx_msg_parse_aid_ini, _ubx_msg_parse_aid_hui, _ubx_msg_parse_aid_alm,
      _ubx_msg_parse_aid_eph, _ubx_msg_parse_nav_timegps] <;>
    (try split_ifs) <;> simp

/-- Witness for C10: an AID-ALM call (which never reads the clock) gives
identical results under two different wall-clock values. -/
theorem C10_determinism_witness :
    ubx_parse (.aid_alm sample_alm 40) 11 gps_assist_data_init =
      ubx_parse (.aid_alm sample_alm 40) 22 gps_assist_data_init :=
  (C10_determinism (.aid_alm sample_alm 40) gps_assist_data_init 11 22).2.2 (by decide)

/-! ## C1: the unchecked appends can push the counts past MAX_SV -/

/-- A full-size AID-ALM message carrying a valid (non-zero-week) almanac. -/
def alm_full : ubx_aid_alm :=
  { sv_id := 1, gps_week := 1024, alm_words := [] }

/-- A full-size AID-EPH message with `present` set. -/
def eph_full : ubx_aid_eph :=
  { sv_id := 1, present := 1, eph_words := [] }

/-- One dispatched valid AID-ALM message (state part only). -/
def alm_step (g : GpsAssistData) : GpsAssistData :=
  (_ubx_msg_parse_aid_alm alm_full sizeof_ubx_aid_alm g).1

/-- One dispatched valid AID-EPH message (state part only). -/
def eph_step (g : GpsAssistData) : GpsAssistData :=
  (_ubx_msg_parse_aid_eph eph_full sizeof_ubx_aid_eph g).1

lemma alm_step_n_sv (g : GpsAssistData) :
    (alm_step g).almanac.n_sv = g.almanac.n_sv + 1 := rfl

lemma eph_step_n_sv (g : GpsAssistData) :
    (eph_step g).ephemeris.n_sv = g.ephemeris.n_sv + 1 := rfl

lemma alm_iter_n_sv (n : ℕ) (g : GpsAssistData) :
    (alm_step^[n] g).almanac.n_sv = g.almanac.n_sv + n := by
  induction n generalizing g with
  | zero => simp
  | succ n ih =>
    rw [Function.iterate_succ_apply, ih, alm_step_n_sv]
    omega

lemma eph_iter_n_sv (n : ℕ) (g : GpsAssistData) :
    (eph_step^[n] g).ephemeris.n_sv = g.ephemeris.n_sv + n := by
  induction n generalizing g with
  | zero => simp
  | succ n ih =>
    rw [Function.iterate_succ_apply, ih, eph_step_n_sv]
    omega

/-- C1 fails on the code: dispatching `MAX_SV + 1` valid AID-ALM (resp.
AID-EPH) messages into a fresh accumulator drives the satellite count to
`MAX_SV + 1 > MAX_SV`, so the last append addressed the out-of-bounds
index `MAX_SV`; the decoders have no capacity guard. -/
theorem C1_unbounded_append :
    (alm_step^[MAX_SV + 1] gps_assist_data_init).almanac.n_sv = MAX_SV + 1
    ∧ (eph_step^[MAX_SV + 1] gps_assist_data_init).ephemeris.n_sv = MAX_SV + 1
    ∧ MAX_SV < MAX_SV + 1 := by
  refine ⟨?_, ?_, Nat.lt_succ_self _⟩
  · rw [alm_iter_n_sv]
    rfl
  · rw [eph_iter_n_sv]
    rfl

/-! ## C9: the truncating round trip -/

/-- Nested-truncation identity: truncating `v·2^m`, dividing back by `2^m`
and truncating again is plain truncation of `v`. -/
lemma trunc_nested (v : ℚ) (m : ℕ) :
    ratTrunc ((ratTrunc (v * 2 ^ m) : ℚ) / 2 ^ m) = ratTrunc v := by
  have hpow : (0 : ℚ) < 2 ^ m := by positivity
  rcases le_or_lt 0 v with hv | hv
  · have hvm : 0 ≤ v * 2 ^ m := by positivity
    have ht : (0 : ℤ) ≤ ⌊v * 2 ^ m⌋ := Int.floor_nonneg.mpr hvm
    rw [ratTrunc_of_nonneg hvm, ratTrunc_of_nonneg hv,
      ratTrunc_of_nonneg (div_nonneg (by exact_mod_cast ht) hpow.le)]
    apply le_antisymm
    · rw [Int.le_floor]
      calc ((⌊(⌊v * 2 ^ m⌋ : ℚ) / 2 ^ m⌋ : ℤ) : ℚ)
          ≤ (⌊v * 2 ^ m⌋ : ℚ) / 2 ^ m := Int.floor_le _
        _ ≤ v := by
            rw [div_le_iff₀ hpow]
            exact Int.floor_le _
    · rw [Int.le_floor, le_div_iff₀ hpow]
      have hcast : ((⌊v⌋ : ℚ) * 2 ^ m) = ((⌊v⌋ * 2 ^ m : ℤ) : ℚ) := by
        push_cast
        ring
      rw [hcast, Int.cast_le, Int.le_floor]
      push_cast
      exact mul_le_mul_of_nonneg_right (Int.floor_le v) hpow.le
  · have hvm : v * 2 ^ m ≤ 0 :=
      mul_nonpos_iff.mpr (Or.inr ⟨hv.le, hpow.le⟩)
    have ht : ⌈v * 2 ^ m⌉ ≤ 0 := Int.ceil_le.mpr (by exact_mod_cast hvm)
    have hdiv : (⌈v * 2 ^ m⌉ : ℚ) / 2 ^ m ≤ 0 :=
      div_nonpos_iff.mpr (Or.inr ⟨by exact_mod_cast ht, hpow.le⟩)
    rw [ratTrunc_of_nonpos hvm, ratTrunc_of_nonpos hv.le,
      ratTrunc_of_nonpos hdiv]
    apply le_antisymm
    · rw [Int.ceil_le, div_le_iff₀ hpow]
      have hcast : ((⌈v⌉ : ℚ) * 2 ^ m) = ((⌈v⌉ * 2 ^ m : ℤ) : ℚ) := by
        push_cast
        ring
      rw [hcast, Int.cast_le, Int.ceil_le]
      push_cast
      exact mul_le_mul_of_nonneg_right (Int.le_ceil v) hpow.le
    · refine Int.ceil_le_ceil ?_
      rw [le_div_iff₀ hpow]
      exact Int.le_ceil _

/-- For `sf < 0` the truncating round trip computes the integer part of
the original value. -/
lemma roundtrip_eq_of_neg (v : ℚ) (sf : ℤ) (hsf : sf < 0) :
    float_to_fixedpoint ((float_to_fixedpoint v sf : ℤ) : ℚ) (-sf) = ratTrunc v := by
  unfold float_to_fixedpoint
  rw [if_pos hsf, if_neg (by omega : ¬(-sf < 0)), mulTwo_eq, mulHalf_eq,
    show ((1 : ℚ) / 2) ^ (-sf).toNat = 1 / 2 ^ (-sf).toNat by
      rw [div_pow, one_pow],
    mul_one_div]
  exact trunc_nested v (-sf).toNat

/-- For `sf ≥ 0` the truncating round trip returns the truncated quotient
re-multiplied by `2^sf`. -/
lemma roundtrip_eq_of_nonneg (v : ℚ) (sf : ℤ) (hsf : 0 ≤ sf) :
    float_to_fixedpoint ((float_to_fixedpoint v sf : ℤ) : ℚ) (-sf)
      = ratTrunc (v * (1 / 2) ^ sf.toNat) * 2 ^ sf.toNat := by
  rcases eq_or_lt_of_le hsf with h0 | hpos
  · rw [← h0]
    simp [float_to_fixedpoint, mulHalf, ratTrunc_intCast]
  · unfold float_to_fixedpoint
    rw [if_neg (not_lt.mpr hsf), if_pos (by omega : -sf < 0), mulHalf_eq,
      mulTwo_eq, neg_neg,
      show ((ratTrunc (v * (1 / 2) ^ sf.toNat) : ℤ) : ℚ) * 2 ^ sf.toNat
          = ((ratTrunc (v * (1 / 2) ^ sf.toNat) * 2 ^ sf.toNat : ℤ) : ℚ) by
        push_cast
        ring,
      ratTrunc_intCast]

/-- C9 as stated is false on the code: at `v = 1048576 = 2^20` and
`sf = 29` (within the claimed `|sf| < 30` range) the round trip
`scale(scale(v, sf), -sf)` returns 0, an error of the full magnitude of
`v` — not within any floating tolerance. -/
theorem C9_roundtrip_counterexample :
    (29 : ℤ).natAbs < 30
    ∧ float_to_fixedpoint ((float_to_fixedpoint 1048576 29 : ℤ) : ℚ) (-29) = 0
    ∧ ¬(|((float_to_fixedpoint ((float_to_fixedpoint 1048576 29 : ℤ) : ℚ) (-29) : ℤ) : ℚ)
          - 1048576| ≤ 1048575) := by
  have h1 : float_to_fixedpoint 1048576 29 = 0 := by
    unfold float_to_fixedpoint
    rw [if_neg (by norm_num), show ((29 : ℤ).toNat = 29) from rfl, mulHalf_eq,
      ratTrunc_of_nonneg (by positivity)]
    norm_num
  have h2 : float_to_fixedpoint ((float_to_fixedpoint 1048576 29 : ℤ) : ℚ) (-29) = 0 := by
    rw [h1]
    unfold float_to_fixedpoint
    rw [if_pos (by norm_num), mulTwo_eq]
    norm_num [ratTrunc]
  refine ⟨by norm_num, h2, ?_⟩
  rw [h2]
  norm_num

/-- C9 amended: the round trip does not stay within a uniform floating
tolerance; it reproduces `v` only up to the truncation granularity
`2^max(sf,0)` — exactly the integer part of `v` when `sf < 0`, and the
truncated quotient rescaled when `sf ≥ 0`. -/
theorem C9_roundtrip_amended (v : ℚ) (sf : ℤ) (h : sf.natAbs < 30) :
    |((float_to_fixedpoint ((float_to_fixedpoint v sf : ℤ) : ℚ) (-sf) : ℤ) : ℚ) - v|
      < 2 ^ sf.toNat
    ∧ |((double_to_fixedpoint ((double_to_fixedpoint v sf : ℤ) : ℚ) (-sf) : ℤ) : ℚ) - v|
      < 2 ^ sf.toNat := by
  have key : |((float_to_fixedpoint ((float_to_fixedpoint v sf : ℤ) : ℚ) (-sf) : ℤ) : ℚ) - v|
      < 2 ^ sf.toNat := by
    rcases lt_or_ge sf 0 with hsf | hsf
    · rw [roundtrip_eq_of_neg v sf hsf, Int.toNat_of_nonpos hsf.le, pow_zero]
      exact abs_ratTrunc_sub_lt v
    · rw [roundtrip_eq_of_nonneg v sf hsf]
      have hpow : (0 : ℚ) < 2 ^ sf.toNat := by positivity
      have hinv : ((1 : ℚ) / 2) ^ sf.toNat * 2 ^ sf.toNat = 1 := by
        rw [div_pow, one_pow]
        field_simp
      have halg : ((ratTrunc (v * (1 / 2) ^ sf.toNat) * 2 ^ sf.toNat : ℤ) : ℚ) - v
          = ((ratTrunc (v * (1 / 2) ^ sf.toNat) : ℤ) - v * (1 / 2) ^ sf.toNat)
              * 2 ^ sf.toNat := by
        push_cast
        rw [sub_mul, mul_assoc, hinv, mul_one]
      rw [halg, abs_mul, abs_of_pos hpow]
      calc |((ratTrunc (v * (1 / 2) ^ sf.toNat) : ℤ) : ℚ) - v * (1 / 2) ^ sf.toNat|
            * 2 ^ sf.toNat
          < 1 * 2 ^ sf.toNat :=
            mul_lt_mul_of_pos_right (abs_ratTrunc_sub_lt _) hpow
        _ = 2 ^ sf.toNat := one_mul _
  exact ⟨key, by rw [show double_to_fixedpoint = float_to_fixedpoint from rfl]; exact key⟩

/-- Witness for C9 (amended): at `v = 7/2`, `sf = 1` the round trip yields
2, within the granularity bound `2^1`. -/
theorem C9_roundtrip_amended_witness :
    |((float_to_fixedpoint ((float_to_fixedpoint (7 / 2) 1 : ℤ) : ℚ) (-1) : ℤ) : ℚ)
        - 7 / 2| < 2 ^ (1 : ℤ).toNat :=
  (C9_roundtrip_amended (7 / 2) 1 (by decide)).1

end UbxParse
